import Mathlib

/-!
Verification development for the real-time face-recognition payment backend.

The definitions below are a shallow embedding of the two service modules
`app/services/face_recognition.py` (similarity computation and best-match
selection) and `app/services/websocket_service.py` (per-connection state,
frame processing, cache maintenance).  Numpy float vectors are modelled as
lists of real numbers; Python dicts keyed by client id are modelled as
functions from `String`; the observable effects of a handler (messages
written to a websocket, cache mutations) are recorded as an ordered event
trace.
-/

namespace FacePay

/-- One face embedding: a numpy float vector, modelled as a list of reals. -/
abbrev Emb : Type := List ℝ

/-- `np.dot` on 1-d arrays: the sum of pointwise products. -/
def np_dot (a b : List ℝ) : ℝ := (List.zipWith (fun x y => x * y) a b).sum

/-- `np.linalg.norm`: the square root of the sum of squares. -/
noncomputable def np_norm (v : List ℝ) : ℝ := Real.sqrt (np_dot v v)

/-- `FaceRecognitionService.calculate_similarity` (face_recognition.py lines
138-149): returns 0.0 when either norm is zero, otherwise the dot product
divided by the product of the norms. -/
noncomputable def calculate_similarity (embedding1 embedding2 : List ℝ) : ℝ :=
  if np_norm embedding1 = 0 ∨ np_norm embedding2 = 0 then 0
  else np_dot embedding1 embedding2 / (np_norm embedding1 * np_norm embedding2)

/-- The `for i, stored_embedding in enumerate(stored_embeddings)` loop of
`find_best_match` (face_recognition.py lines 159-163), carrying the running
index and the `(best_similarity, best_index)` accumulator. -/
noncomputable def fbmLoop (query : List ℝ) (threshold : ℝ) :
    List (List ℝ) → ℕ → ℝ × Option ℕ → ℝ × Option ℕ
  | [], _, acc => acc
  | e :: rest, i, acc =>
      fbmLoop query threshold rest (i + 1)
        (if calculate_similarity query e > threshold ∧ calculate_similarity query e > acc.1
         then (calculate_similarity query e, some i) else acc)

/-- `FaceRecognitionService.find_best_match` (face_recognition.py lines
151-165): `None` on an empty list; otherwise run the loop from
`best_similarity = -1`, `best_index = None`, and return `best_index` if the
final `best_similarity` exceeds the threshold, else `None`. -/
noncomputable def find_best_match (query : List ℝ) (stored : List (List ℝ))
    (threshold : ℝ) : Option ℕ :=
  if stored.isEmpty then none
  else
    let acc := fbmLoop query threshold stored 0 (-1, none)
    if acc.1 > threshold then acc.2 else none

/-! ## WebSocket manager (websocket_service.py) -/

/-- A detected face as assembled by `process_image_async`
(face_recognition.py lines 119-136): bounding box, confidence, and the
`embedding` key, present exactly when extraction succeeded. -/
structure Face where
  bbox : ℤ × ℤ × ℤ × ℤ
  confidence : ℝ
  embedding : Option Emb

/-- The per-face record placed in a `face_detection_result` message
(websocket_service.py lines 89-96). -/
structure FaceInfo where
  bbox : ℤ × ℤ × ℤ × ℤ
  confidence : ℝ
  has_embedding : Bool

/-- The dict returned by `face_service.process_image_async`: the face list and
the embeddings that were successfully extracted (`face_count` is
`len(faces)`, face_recognition.py line 135). -/
structure ProcResult where
  faces : List Face
  embeddings : List Emb

/-- `{bbox, confidence, has_embedding}` as built on websocket_service.py
lines 90-94: `has_embedding` is membership of the `embedding` key. -/
def faceInfoOf (f : Face) : FaceInfo :=
  { bbox := f.bbox, confidence := f.confidence, has_embedding := f.embedding.isSome }

/-- Outbound messages of the wire protocol (the dicts passed to
`send_personal_message`). -/
inductive OutMsg where
  | connection_established (client_id : String) (message : String)
  | error (message : String)
  | face_detection_result (faces_detected : ℕ) (faces : List FaceInfo)
      (embeddings_count : ℕ)
  | face_detection_toggled (enabled : Bool)
  | face_match_result (match_found : Bool) (match_index : Option ℕ)
      (confidence : Option ℝ) (message : Option String)
  | face_cache_cleared (message : String)

/-- One observable effect of a handler, in execution order: a message written
to a client's websocket, or a rebinding of a client's embedding cache. -/
inductive Event where
  | sent (client_id : String) (msg : OutMsg)
  | cacheSet (client_id : String) (cache : List Emb)

/-- The mutable state of `WebSocketManager` (websocket_service.py lines
21-24).  The three Python dicts are modelled as functions from client id;
membership in `active_connections` is what `send_personal_message` checks, so
only presence is recorded for it. -/
structure WSState where
  active_connections : String → Bool
  face_detection_enabled : String → Option Bool
  face_embeddings_cache : String → Option (List Emb)

/-- Dict write `d[k] = v` for a `String → Bool` dict. -/
def setB (f : String → Bool) (k : String) (v : Bool) : String → Bool :=
  fun x => if x == k then v else f x

/-- Dict write (or deletion, via `none`) for an `Option`-valued dict. -/
def setO {β : Type} (f : String → Option β) (k : String) (v : Option β) :
    String → Option β :=
  fun x => if x == k then v else f x

/-- `send_personal_message` (websocket_service.py lines 53-59): the message is
written only when the client is still in `active_connections`; otherwise it
is silently dropped. -/
def sendTo (st : WSState) (client_id : String) (m : OutMsg) : List Event :=
  if st.active_connections client_id then [Event.sent client_id m] else []

/-- `WebSocketManager.connect` (lines 26-40): register the connection with
detection disabled and an empty cache, then send `connection_established`. -/
def connect (st : WSState) (client_id : String) : WSState × List Event :=
  let st2 : WSState :=
    { active_connections := setB st.active_connections client_id true
      face_detection_enabled := setO st.face_detection_enabled client_id (some false)
      face_embeddings_cache := setO st.face_embeddings_cache client_id (some []) }
  (st2, sendTo st2 client_id
    (OutMsg.connection_established client_id "Connected to FacePay real-time service"))

/-- `WebSocketManager.disconnect` (lines 42-51): delete all three entries;
idempotent, no message. -/
def disconnect (st : WSState) (client_id : String) : WSState :=
  { active_connections := setB st.active_connections client_id false
    face_detection_enabled := setO st.face_detection_enabled client_id none
    face_embeddings_cache := setO st.face_embeddings_cache client_id none }

/-- Lines 101-105 of `process_video_frame`: if any embeddings were obtained,
extend the cache and, when its length exceeds 10, keep only the last 10. -/
def storeEmbeddings (cache : List Emb) (new : List Emb) : List Emb :=
  if new.isEmpty then cache
  else
    let extended := cache ++ new
    if extended.length > 10 then extended.drop (extended.length - 10) else extended

/-- `WebSocketManager.process_video_frame` (lines 66-112).  `decodeOk` is
whether `cv2.imdecode` produced an image (`False` models the `frame is None`
branch); `result` is what `face_service.process_image_async` would return for
the decoded frame.  The event list records the effects in execution order:
note the `face_detection_result` send (lines 86-98) happens before the cache
update (lines 100-105).  A cache-dict lookup for an unregistered id raises
`KeyError`, which the `except` block turns into one more error message. -/
def process_video_frame (st : WSState) (client_id : String) (decodeOk : Bool)
    (result : ProcResult) : WSState × List Event :=
  if !decodeOk then
    (st, sendTo st client_id (OutMsg.error "Failed to decode frame"))
  else if (st.face_detection_enabled client_id).getD false then
    let evs := sendTo st client_id
      (OutMsg.face_detection_result result.faces.length
        (result.faces.map faceInfoOf) result.embeddings.length)
    if result.embeddings.isEmpty then (st, evs)
    else
      match st.face_embeddings_cache client_id with
      | none =>
          (st, evs ++ sendTo st client_id
            (OutMsg.error "Frame processing error: KeyError"))
      | some cache =>
          let newCache := storeEmbeddings cache result.embeddings
          ({ st with
             face_embeddings_cache := setO st.face_embeddings_cache client_id (some newCache) },
           evs ++ [Event.cacheSet client_id newCache])
  else (st, [])

/-- `WebSocketManager.toggle_face_detection` (lines 114-122): writes the flag
dict unconditionally — no registration check — then sends the acknowledgment
(dropped when the id is not registered). -/
def toggle_face_detection (st : WSState) (client_id : String) (enabled : Bool) :
    WSState × List Event :=
  let st2 : WSState :=
    { st with
      face_detection_enabled := setO st.face_detection_enabled client_id (some enabled) }
  (st2, sendTo st2 client_id (OutMsg.face_detection_toggled enabled))

/-- `WebSocketManager.clear_face_cache` (lines 165-173): writes an empty list
into the cache dict unconditionally — no registration check — then sends the
acknowledgment (dropped when the id is not registered). -/
def clear_face_cache (st : WSState) (client_id : String) : WSState × List Event :=
  let st2 : WSState :=
    { st with
      face_embeddings_cache := setO st.face_embeddings_cache client_id (some []) }
  (st2, sendTo st2 client_id (OutMsg.face_cache_cleared "Face cache cleared"))

/-- `WebSocketManager.match_face` (lines 124-163): match a query embedding
against the connection's cached embeddings with threshold 0.6 and report the
result; the reported confidence is `calculate_similarity` recomputed at the
returned index. -/
noncomputable def match_face (st : WSState) (client_id : String) (query : Emb) :
    WSState × List Event :=
  let stored := (st.face_embeddings_cache client_id).getD []
  if stored.isEmpty then
    (st, sendTo st client_id
      (OutMsg.face_match_result false none none (some "No stored faces to match against")))
  else
    match find_best_match query stored 0.6 with
    | some i =>
        (st, sendTo st client_id
          (OutMsg.face_match_result true (some i)
            (some (calculate_similarity query (stored.getD i []))) none))
    | none =>
        (st, sendTo st client_id
          (OutMsg.face_match_result false none none (some "No matching face found")))

/-! ## EmbeddingCache lemmas -/

lemma rtake_length_le (l : List Emb) : (l.rtake 10).length ≤ 10 := by
  simp only [List.rtake, List.length_drop]
  omega

lemma rtake_of_length_le (l : List Emb) (h : l.length ≤ 10) : l.rtake 10 = l := by
  simp [List.rtake, Nat.sub_eq_zero_of_le h]

lemma rtake_append_rtake (xs b : List Emb) :
    (xs.rtake 10 ++ b).rtake 10 = (xs ++ b).rtake 10 := by
  simp only [List.rtake_eq_reverse_take_reverse, List.reverse_append, List.reverse_reverse,
    List.take_append_eq_append_take, List.length_reverse, List.take_take]
  have h : min (10 - b.length) 10 = 10 - b.length := by omega
  rw [h]

lemma storeEmbeddings_eq_rtake (cache new : List Emb) (hc : cache.length ≤ 10) :
    storeEmbeddings cache new = (cache ++ new).rtake 10 := by
  unfold storeEmbeddings
  by_cases h : new.isEmpty
  · rw [List.isEmpty_iff] at h
    subst h
    simp [rtake_of_length_le _ hc]
  · rw [if_neg h]
    by_cases h2 : (cache ++ new).length > 10
    · rw [if_pos h2]; rfl
    · rw [if_neg h2, rtake_of_length_le _ (by omega)]

lemma foldl_storeEmbeddings (batches : List (List Emb)) (xs : List Emb) :
    batches.foldl storeEmbeddings (xs.rtake 10) = (xs ++ batches.flatten).rtake 10 := by
  induction batches generalizing xs with
  | nil => simp
  | cons b bs ih =>
      rw [List.foldl_cons, storeEmbeddings_eq_rtake _ _ (rtake_length_le xs),
        rtake_append_rtake, ih (xs ++ b), List.flatten_cons, List.append_assoc]

/-! ## Similarity lemmas -/

lemma np_dot_self_eq : ∀ v : List ℝ, np_dot v v = (v.map fun x => x * x).sum
  | [] => rfl
  | a :: t => by
      have ih := np_dot_self_eq t
      simp only [np_dot, List.zipWith_cons_cons, List.sum_cons, List.map_cons] at ih ⊢
      rw [ih]

lemma np_dot_self_nonneg (v : List ℝ) : 0 ≤ np_dot v v := by
  rw [np_dot_self_eq]
  refine List.sum_nonneg fun x hx => ?_
  obtain ⟨y, _, rfl⟩ := List.mem_map.mp hx
  exact mul_self_nonneg y

lemma np_dot_self_pos (v : List ℝ) (h : ∃ x ∈ v, x ≠ 0) : 0 < np_dot v v := by
  obtain ⟨x, hx, hne⟩ := h
  have h1 : x * x ≤ np_dot v v := by
    rw [np_dot_self_eq]
    refine List.single_le_sum (fun y hy => ?_) _ (List.mem_map.mpr ⟨x, hx, rfl⟩)
    obtain ⟨z, _, rfl⟩ := List.mem_map.mp hy
    exact mul_self_nonneg z
  have h2 : 0 < x * x := mul_self_pos.mpr hne
  linarith

lemma np_norm_pos (v : List ℝ) (h : ∃ x ∈ v, x ≠ 0) : 0 < np_norm v :=
  Real.sqrt_pos.mpr (np_dot_self_pos v h)

lemma np_dot_replicate_zero (n : ℕ) :
    np_dot (List.replicate n (0 : ℝ)) (List.replicate n 0) = 0 := by
  induction n with
  | zero => rfl
  | succ k ih => simp [np_dot, List.replicate_succ]

lemma np_norm_replicate_zero (n : ℕ) : np_norm (List.replicate n (0 : ℝ)) = 0 := by
  rw [np_norm, np_dot_replicate_zero, Real.sqrt_zero]

/-- Evaluation helper: a norm is `b` once the self dot product is `b * b`. -/
lemma np_norm_eq (v : List ℝ) (b : ℝ) (hb : 0 ≤ b) (h : np_dot v v = b * b) :
    np_norm v = b := by
  rw [np_norm, h, Real.sqrt_mul_self hb]

/-! ## Best-match loop lemmas -/

/-- If no candidate's similarity exceeds the threshold, the loop never
updates its accumulator. -/
lemma fbmLoop_no_update (query : List ℝ) (t : ℝ) :
    ∀ (l : List (List ℝ)) (i : ℕ) (acc : ℝ × Option ℕ),
      (∀ x ∈ l, calculate_similarity query x ≤ t) → fbmLoop query t l i acc = acc
  | [], _, _, _ => rfl
  | e :: rest, i, acc, h => by
      rw [fbmLoop,
        if_neg fun hc => absurd hc.1 (not_lt.mpr (h e (List.mem_cons_self e rest)))]
      exact fbmLoop_no_update query t rest (i + 1) acc
        fun x hx => h x (List.mem_cons_of_mem _ hx)

/-- If no candidate's similarity exceeds the current best, the loop never
updates its accumulator. -/
lemma fbmLoop_fixed (query : List ℝ) (t : ℝ) :
    ∀ (l : List (List ℝ)) (i : ℕ) (acc : ℝ × Option ℕ),
      (∀ x ∈ l, calculate_similarity query x ≤ acc.1) → fbmLoop query t l i acc = acc
  | [], _, _, _ => rfl
  | e :: rest, i, acc, h => by
      rw [fbmLoop,
        if_neg fun hc => absurd hc.2 (not_lt.mpr (h e (List.mem_cons_self e rest)))]
      exact fbmLoop_fixed query t rest (i + 1) acc
        fun x hx => h x (List.mem_cons_of_mem _ hx)

/-- The loop processes an appended list in two phases. -/
lemma fbmLoop_append (query : List ℝ) (t : ℝ) :
    ∀ (l₁ l₂ : List (List ℝ)) (i : ℕ) (acc : ℝ × Option ℕ),
      fbmLoop query t (l₁ ++ l₂) i acc =
        fbmLoop query t l₂ (i + l₁.length) (fbmLoop query t l₁ i acc)
  | [], l₂, i, acc => by rw [List.nil_append, fbmLoop, List.length_nil, Nat.add_zero]
  | e :: rest, l₂, i, acc => by
      rw [List.cons_append, fbmLoop, fbmLoop,
        fbmLoop_append query t rest l₂ (i + 1) _, List.length_cons]
      congr 1
      omega

/-- The best similarity seen so far stays below any bound that dominates
every candidate similarity. -/
lemma fbmLoop_lt (query : List ℝ) (t M : ℝ) :
    ∀ (l : List (List ℝ)) (i : ℕ) (acc : ℝ × Option ℕ),
      (∀ x ∈ l, calculate_similarity query x < M) → acc.1 < M →
      (fbmLoop query t l i acc).1 < M
  | [], _, _, _, h2 => h2
  | e :: rest, i, acc, h1, h2 => by
      rw [fbmLoop]
      refine fbmLoop_lt query t M rest (i + 1) _
        (fun x hx => h1 x (List.mem_cons_of_mem _ hx)) ?_
      by_cases hc : calculate_similarity query e > t ∧ calculate_similarity query e > acc.1
      · rw [if_pos hc]
        exact h1 e (List.mem_cons_self e rest)
      · rw [if_neg hc]
        exact h2

/-- The loop result is either the initial accumulator or the similarity of
some candidate that exceeded the threshold, paired with its index. -/
lemma fbmLoop_some (query : List ℝ) (t : ℝ) :
    ∀ (l : List (List ℝ)) (i : ℕ) (acc : ℝ × Option ℕ),
      fbmLoop query t l i acc = acc ∨
        ∃ k, ∃ hk : k < l.length,
          fbmLoop query t l i acc =
            (calculate_similarity query (l.get ⟨k, hk⟩), some (i + k)) ∧
          calculate_similarity query (l.get ⟨k, hk⟩) > t
  | [], _, acc => Or.inl rfl
  | e :: rest, i, acc => by
      rw [fbmLoop]
      by_cases hc : calculate_similarity query e > t ∧ calculate_similarity query e > acc.1
      · rw [if_pos hc]
        rcases fbmLoop_some query t rest (i + 1)
            (calculate_similarity query e, some i) with h | ⟨k, hk, hEq, hgt⟩
        · exact Or.inr ⟨0, by simp, by rw [h]; rfl, hc.1⟩
        · refine Or.inr ⟨k + 1, by simp; omega, ?_, hgt⟩
          rw [hEq]
          have : i + 1 + k = i + (k + 1) := by omega
          rw [this]
          rfl
      · rw [if_neg hc]
        rcases fbmLoop_some query t rest (i + 1) acc with h | ⟨k, hk, hEq, hgt⟩
        · exact Or.inl h
        · refine Or.inr ⟨k + 1, by simp; omega, ?_, hgt⟩
          rw [hEq]
          have : i + 1 + k = i + (k + 1) := by omega
          rw [this]
          rfl

/-- If every similarity is at most the threshold, `find_best_match` returns
`None` (the accumulator never moves, so `best_index` stays `None`). -/
lemma fbm_none_of_all_le (query : List ℝ) (t : ℝ) (stored : List (List ℝ))
    (h : ∀ x ∈ stored, calculate_similarity query x ≤ t) :
    find_best_match query stored t = none := by
  simp only [find_best_match]
  cases he : stored.isEmpty
  · rw [if_neg (by simp), fbmLoop_no_update query t stored 0 (-1, none) h]
    exact ite_self none
  · rw [if_pos rfl]

/-- The earliest candidate attaining the maximal similarity wins, provided
that maximum exceeds both the threshold and the `-1` sentinel. -/
lemma fbm_argmax (query : List ℝ) (t : ℝ) (pre : List (List ℝ)) (c : List ℝ)
    (post : List (List ℝ))
    (ht : calculate_similarity query c > t)
    (h1 : calculate_similarity query c > -1)
    (hpre : ∀ x ∈ pre, calculate_similarity query x < calculate_similarity query c)
    (hpost : ∀ x ∈ post, calculate_similarity query x ≤ calculate_similarity query c) :
    find_best_match query (pre ++ c :: post) t = some pre.length := by
  simp only [find_best_match]
  rw [if_neg (by simp), fbmLoop_append, Nat.zero_add, fbmLoop]
  have hlt : (fbmLoop query t pre 0 (-1, none)).1 < calculate_similarity query c :=
    fbmLoop_lt query t (calculate_similarity query c) pre 0 (-1, none) hpre h1
  have hcond : calculate_similarity query c > t ∧
      calculate_similarity query c > (fbmLoop query t pre 0 (-1, none)).1 := ⟨ht, hlt⟩
  rw [if_pos hcond,
    fbmLoop_fixed query t post (pre.length + 1)
      (calculate_similarity query c, some pre.length) hpost]
  exact if_pos ht

/-- Evaluation helper: similarity via explicitly computed norms. -/
lemma calc_sim_eval (a b : List ℝ) (na nb : ℝ) (hna : 0 < na) (hnb : 0 < nb)
    (ha : np_dot a a = na * na) (hb : np_dot b b = nb * nb) :
    calculate_similarity a b = np_dot a b / (na * nb) := by
  rw [calculate_similarity, np_norm_eq a na hna.le ha, np_norm_eq b nb hnb.le hb,
    if_neg (by push_neg; exact ⟨hna.ne', hnb.ne'⟩)]

lemma sim_e0 : calculate_similarity [(1 : ℝ), 0, 0, 0] [(1 : ℝ), 1, 1, 1] = 1 / 2 := by
  rw [calc_sim_eval _ _ 1 2 one_pos two_pos (by norm_num [np_dot]) (by norm_num [np_dot])]
  norm_num [np_dot]

lemma sim_e1 : calculate_similarity [(1 : ℝ), 0, 0, 0] [(7 : ℝ), 7, 1, 1] = 7 / 10 := by
  rw [calc_sim_eval _ _ 1 10 one_pos (by norm_num) (by norm_num [np_dot])
    (by norm_num [np_dot])]
  norm_num [np_dot]

lemma sim_e2 : calculate_similarity [(1 : ℝ), 0, 0, 0] [(7 : ℝ), 1, 7, 1] = 7 / 10 := by
  rw [calc_sim_eval _ _ 1 10 one_pos (by norm_num) (by norm_num [np_dot])
    (by norm_num [np_dot])]
  norm_num [np_dot]

lemma sim_opposite : calculate_similarity [(1 : ℝ)] [(-1 : ℝ)] = -1 := by
  rw [calc_sim_eval _ _ 1 1 one_pos one_pos (by norm_num [np_dot]) (by norm_num [np_dot])]
  norm_num [np_dot]

lemma sim_orth : calculate_similarity [(1 : ℝ), 0] [(0 : ℝ), 1] = 0 := by
  rw [calc_sim_eval _ _ 1 1 one_pos one_pos (by norm_num [np_dot]) (by norm_num [np_dot])]
  norm_num [np_dot]

lemma sim_34_self : calculate_similarity [(3 : ℝ), 4] [(3 : ℝ), 4] = 1 := by
  rw [calc_sim_eval _ _ 5 5 (by norm_num) (by norm_num) (by norm_num [np_dot])
    (by norm_num [np_dot])]
  norm_num [np_dot]

/-! ## Claim theorems -/

/-- C1: For every sequence of embedding batches appended to a connection's
cache (each batch handled by lines 101-105 of `process_video_frame`), the
cache length never exceeds 10, and once more than 10 embeddings have been
appended in total the cache holds exactly the last 10 appended embeddings in
append order (`l[-10:]` of the full appended sequence, oldest evicted
first). -/
theorem embedding_cache_fifo (batches : List (List Emb)) :
    (batches.foldl storeEmbeddings []).length ≤ 10 ∧
      (10 < batches.flatten.length →
        batches.foldl storeEmbeddings [] =
          batches.flatten.drop (batches.flatten.length - 10)) := by
  have h := foldl_storeEmbeddings batches []
  rw [show (([] : List Emb).rtake 10) = [] from rfl, List.nil_append] at h
  rw [h]
  exact ⟨rtake_length_le _, fun _ => rfl⟩

/-- Witness for C1: twelve one-embedding batches; the cache ends with the
last ten embeddings, in order. -/
theorem embedding_cache_fifo_witness :
    10 < ([[[1]], [[2]], [[3]], [[4]], [[5]], [[6]], [[7]], [[8]], [[9]], [[10]], [[11]],
        [[12]]] : List (List Emb)).flatten.length ∧
      ([[[1]], [[2]], [[3]], [[4]], [[5]], [[6]], [[7]], [[8]], [[9]], [[10]], [[11]],
        [[12]]] : List (List Emb)).foldl storeEmbeddings [] =
        ([[[1]], [[2]], [[3]], [[4]], [[5]], [[6]], [[7]], [[8]], [[9]], [[10]], [[11]],
          [[12]]] : List (List Emb)).flatten.drop
          (([[[1]], [[2]], [[3]], [[4]], [[5]], [[6]], [[7]], [[8]], [[9]], [[10]], [[11]],
            [[12]]] : List (List Emb)).flatten.length - 10) :=
  ⟨by norm_num,
   (embedding_cache_fifo [[[1]], [[2]], [[3]], [[4]], [[5]], [[6]], [[7]], [[8]], [[9]],
      [[10]], [[11]], [[12]]]).2 (by norm_num)⟩

/-- C7: `calculate_similarity` returns 0.0 (a defined value, not a failure)
whenever either vector has zero norm, and otherwise equals the dot product
divided by the product of the Euclidean norms. -/
theorem calculate_similarity_spec (a b : List ℝ) :
    (np_norm a = 0 ∨ np_norm b = 0 → calculate_similarity a b = 0) ∧
      (np_norm a ≠ 0 → np_norm b ≠ 0 →
        calculate_similarity a b = np_dot a b / (np_norm a * np_norm b)) := by
  constructor
  · intro h
    rw [calculate_similarity, if_pos h]
  · intro h1 h2
    rw [calculate_similarity, if_neg (by tauto)]

/-- Witness for C7: a zero vector yields similarity 0; on `[3,4]` and `[4,3]`
the quotient form holds. -/
theorem calculate_similarity_spec_witness :
    calculate_similarity [(0 : ℝ)] [(1 : ℝ)] = 0 ∧
      calculate_similarity [(3 : ℝ), 4] [(4 : ℝ), 3] =
        np_dot [(3 : ℝ), 4] [(4 : ℝ), 3] / (np_norm [(3 : ℝ), 4] * np_norm [(4 : ℝ), 3]) :=
  ⟨(calculate_similarity_spec [0] [1]).1
      (Or.inl (np_norm_eq [0] 0 le_rfl (by norm_num [np_dot]))),
   (calculate_similarity_spec [3, 4] [4, 3]).2
      (by rw [np_norm_eq [3, 4] 5 (by norm_num) (by norm_num [np_dot])]; norm_num)
      (by rw [np_norm_eq [4, 3] 5 (by norm_num) (by norm_num [np_dot])]; norm_num)⟩

/-- C9: the cosine similarity of any nonzero vector with itself is exactly 1,
and with a zero vector it is 0 (via the zero-norm guard). -/
theorem cosine_self_and_zero_vector (v : List ℝ) (n : ℕ) :
    ((∃ x ∈ v, x ≠ 0) → calculate_similarity v v = 1) ∧
      calculate_similarity v (List.replicate n 0) = 0 := by
  constructor
  · intro h
    have hpos := np_dot_self_pos v h
    have hn := np_norm_pos v h
    rw [calculate_similarity, if_neg (by push_neg; exact ⟨hn.ne', hn.ne'⟩), np_norm,
      Real.mul_self_sqrt hpos.le, div_self hpos.ne']
  · rw [calculate_similarity, if_pos (Or.inr (np_norm_replicate_zero n))]

/-- Witness for C9 at `v = [3,4]`, zero vector of length 2. -/
theorem cosine_self_and_zero_vector_witness :
    calculate_similarity [(3 : ℝ), 4] [(3 : ℝ), 4] = 1 ∧
      calculate_similarity [(3 : ℝ), 4] (List.replicate 2 0) = 0 :=
  ⟨(cosine_self_and_zero_vector [3, 4] 2).1 ⟨3, by norm_num, by norm_num⟩,
   (cosine_self_and_zero_vector [3, 4] 2).2⟩

/-- C2 counterexample: the claim as stated fails for a threshold below the
`-1` sentinel.  With query `[1]` and single candidate `[-1]` the (maximal)
similarity is `-1`, which exceeds the threshold `-2`, yet `find_best_match`
returns `None`: the strict comparison against the initial
`best_similarity = -1` never lets the update fire. -/
theorem find_best_match_sentinel_counterexample :
    calculate_similarity [(1 : ℝ)] [(-1 : ℝ)] = -1 ∧ ((-1 : ℝ) > -2) ∧
      find_best_match [(1 : ℝ)] [[(-1 : ℝ)]] (-2) = none := by
  refine ⟨sim_opposite, by norm_num, ?_⟩
  simp only [find_best_match]
  rw [if_neg (by simp), fbmLoop]
  have hneg : ¬(calculate_similarity [(1 : ℝ)] [(-1 : ℝ)] > (-2 : ℝ) ∧
      calculate_similarity [(1 : ℝ)] [(-1 : ℝ)] >
        ((-1 : ℝ), (none : Option ℕ)).1) := by
    rw [sim_opposite]
    intro hc
    exact absurd hc.2 (lt_irrefl _)
  rw [if_neg hneg, fbmLoop]
  exact if_pos (by norm_num : ((-1 : ℝ)) > -2)

/-- C2 (amended): whenever the maximal cosine similarity exceeds both the
threshold and `-1` (the loop's initial best similarity), `find_best_match`
returns the earliest index attaining that maximum — in particular index 1
for similarities 0.5, 0.7, 0.7 at threshold 0.6 — and it returns `None`
whenever no candidate's similarity exceeds the threshold. -/
theorem find_best_match_earliest_max :
    (∀ (query : List ℝ) (t : ℝ) (pre : List (List ℝ)) (c : List ℝ)
        (post : List (List ℝ)),
        calculate_similarity query c > t →
        calculate_similarity query c > -1 →
        (∀ x ∈ pre, calculate_similarity query x < calculate_similarity query c) →
        (∀ x ∈ post, calculate_similarity query x ≤ calculate_similarity query c) →
        find_best_match query (pre ++ c :: post) t = some pre.length) ∧
      (∀ (query : List ℝ) (t : ℝ) (stored : List (List ℝ)),
        (∀ x ∈ stored, calculate_similarity query x ≤ t) →
        find_best_match query stored t = none) :=
  ⟨fun query t pre c post ht h1 hpre hpost => fbm_argmax query t pre c post ht h1 hpre hpost,
   fun query t stored h => fbm_none_of_all_le query t stored h⟩

/-- Witness for C2: candidates with similarities `[1/2, 7/10, 7/10]` at
threshold 0.6 give index 1 (the first of the tied maximum); raising the
threshold to 0.9 gives `None`. -/
theorem find_best_match_earliest_max_witness :
    find_best_match [(1 : ℝ), 0, 0, 0]
        [[(1 : ℝ), 1, 1, 1], [(7 : ℝ), 7, 1, 1], [(7 : ℝ), 1, 7, 1]] 0.6 = some 1 ∧
      find_best_match [(1 : ℝ), 0, 0, 0] [[(1 : ℝ), 1, 1, 1]] 0.9 = none :=
  ⟨find_best_match_earliest_max.1 [(1 : ℝ), 0, 0, 0] 0.6 [[(1 : ℝ), 1, 1, 1]]
      [(7 : ℝ), 7, 1, 1] [[(7 : ℝ), 1, 7, 1]]
      (by rw [sim_e1]; norm_num)
      (by rw [sim_e1]; norm_num)
      (fun x hx => by rw [List.mem_singleton] at hx; subst hx; rw [sim_e0, sim_e1]; norm_num)
      (fun x hx => by rw [List.mem_singleton] at hx; subst hx; rw [sim_e2, sim_e1]),
   find_best_match_earliest_max.2 [(1 : ℝ), 0, 0, 0] 0.9 [[(1 : ℝ), 1, 1, 1]]
      (fun x hx => by rw [List.mem_singleton] at hx; subst hx; rw [sim_e0]; norm_num)⟩

/-- C8: `find_best_match` returns `None` on an empty candidate list, and on
any list in which no candidate's similarity exceeds the threshold. -/
theorem find_best_match_none_cases (query : List ℝ) (t : ℝ) (stored : List (List ℝ)) :
    find_best_match query [] t = none ∧
      ((∀ x ∈ stored, calculate_similarity query x ≤ t) →
        find_best_match query stored t = none) :=
  ⟨by simp [find_best_match], fun h => fbm_none_of_all_le query t stored h⟩

/-- Witness for C8: the empty list, and an orthogonal candidate (similarity
0) below threshold 1/2. -/
theorem find_best_match_none_cases_witness :
    find_best_match [(1 : ℝ), 0] [] (1 / 2) = none ∧
      find_best_match [(1 : ℝ), 0] [[(0 : ℝ), 1]] (1 / 2) = none :=
  ⟨(find_best_match_none_cases [(1 : ℝ), 0] (1 / 2) [[(0 : ℝ), 1]]).1,
   (find_best_match_none_cases [(1 : ℝ), 0] (1 / 2) [[(0 : ℝ), 1]]).2
      (fun x hx => by rw [List.mem_singleton] at hx; subst hx; rw [sim_orth]; norm_num)⟩

/-- C10: whenever `find_best_match` returns an index, that index is in range
and the similarity at it — the confidence later reported by `match_face` —
strictly exceeds the threshold. -/
theorem find_best_match_sound (query : List ℝ) (stored : List (List ℝ)) (t : ℝ)
    (i : ℕ) (h : find_best_match query stored t = some i) :
    i < stored.length ∧ calculate_similarity query (stored.getD i []) > t := by
  simp only [find_best_match] at h
  by_cases he : stored.isEmpty
  · rw [if_pos he] at h
    simp at h
  · rw [if_neg he] at h
    by_cases hgt : (fbmLoop query t stored 0 (-1, none)).1 > t
    · rw [if_pos hgt] at h
      rcases fbmLoop_some query t stored 0 (-1, none) with hacc | ⟨k, hk, hEq, hs⟩
      · rw [hacc] at h
        simp at h
      · rw [hEq] at h
        injection h with h2
        have hki : k = i := by omega
        subst hki
        exact ⟨hk, by rw [List.getD_eq_getElem stored [] hk]; exact hs⟩
    · rw [if_neg hgt] at h
      simp at h

/-- Witness for C10: matching `[3,4]` against itself at threshold 0.5 yields
index 0, which is in range with similarity above the threshold. -/
theorem find_best_match_sound_witness :
    0 < ([[(3 : ℝ), 4]] : List (List ℝ)).length ∧
      calculate_similarity [(3 : ℝ), 4]
        (([[(3 : ℝ), 4]] : List (List ℝ)).getD 0 []) > 0.5 :=
  find_best_match_sound [(3 : ℝ), 4] [[(3 : ℝ), 4]] 0.5 0 (by
    simp only [find_best_match]
    rw [if_neg (by simp), fbmLoop]
    have hc : calculate_similarity [(3 : ℝ), 4] [(3 : ℝ), 4] > (0.5 : ℝ) ∧
        calculate_similarity [(3 : ℝ), 4] [(3 : ℝ), 4] >
          ((-1 : ℝ), (none : Option ℕ)).1 := by
      rw [sim_34_self]
      constructor <;> norm_num
    rw [if_pos hc, fbmLoop]
    exact if_pos hc.1)

/-! ## Concrete states for witnesses -/

/-- A state with one registered connection `c1`, detection enabled, empty
cache. -/
def stOn : WSState :=
  { active_connections := fun k => k == "c1"
    face_detection_enabled := fun k => if k == "c1" then some true else none
    face_embeddings_cache := fun k => if k == "c1" then some [] else none }

/-- A state with one registered connection `c1`, detection disabled, empty
cache. -/
def stOff : WSState :=
  { active_connections := fun k => k == "c1"
    face_detection_enabled := fun k => if k == "c1" then some false else none
    face_embeddings_cache := fun k => if k == "c1" then some [] else none }

/-- The state with no connections at all. -/
def stEmpty : WSState :=
  { active_connections := fun _ => false
    face_detection_enabled := fun _ => none
    face_embeddings_cache := fun _ => none }

/-- C3 counterexample: on an id that is not registered,
`toggle_face_detection` does not fail with any error — it silently creates
that id's detection-enabled entry — and `clear_face_cache` silently creates
an empty cache entry; in both cases no message (in particular no error) is
emitted. -/
theorem unknown_connection_counterexample :
    (toggle_face_detection stEmpty "ghost" true).1.face_detection_enabled "ghost"
        = some true ∧
      (toggle_face_detection stEmpty "ghost" true).2 = [] ∧
      (clear_face_cache stEmpty "ghost").1.face_embeddings_cache "ghost" = some [] ∧
      (clear_face_cache stEmpty "ghost").2 = [] :=
  ⟨rfl, rfl, rfl, rfl⟩

/-- C3 (amended): calling `toggle_face_detection` or `clear_face_cache` on an
unregistered connection id does not fail: it silently creates (or
overwrites) that id's per-connection entry — the detection flag, resp. an
empty cache — and the acknowledgment message is dropped, so no message is
delivered at all. -/
theorem unregistered_accessors_silent (st : WSState) (client_id : String) (b : Bool)
    (h : st.active_connections client_id = false) :
    (toggle_face_detection st client_id b).1.face_detection_enabled client_id = some b ∧
      (toggle_face_detection st client_id b).2 = [] ∧
      (clear_face_cache st client_id).1.face_embeddings_cache client_id = some [] ∧
      (clear_face_cache st client_id).2 = [] := by
  refine ⟨?_, ?_, ?_, ?_⟩ <;>
    simp [toggle_face_detection, clear_face_cache, setO, sendTo, h]

/-- Witness for C3 (amended): `ghost` is not registered in `stOn`. -/
theorem unregistered_accessors_silent_witness :
    (toggle_face_detection stOn "ghost" false).1.face_detection_enabled "ghost"
        = some false ∧
      (toggle_face_detection stOn "ghost" false).2 = [] ∧
      (clear_face_cache stOn "ghost").1.face_embeddings_cache "ghost" = some [] ∧
      (clear_face_cache stOn "ghost").2 = [] :=
  unregistered_accessors_silent stOn "ghost" false rfl

/-- C4: for a registered connection, a frame whose bytes fail to decode
produces exactly one error message and nothing else: the state — in
particular the embedding cache — is unchanged, and the result holds for
every possible detection outcome `r`, i.e. no detection or embedding work
influences the outcome. -/
theorem decode_failure_single_error (st : WSState) (client_id : String)
    (r : ProcResult) (h : st.active_connections client_id = true) :
    process_video_frame st client_id false r =
      (st, [Event.sent client_id (OutMsg.error "Failed to decode frame")]) := by
  simp [process_video_frame, sendTo, h]

/-- Witness for C4 on the concrete disabled state. -/
theorem decode_failure_single_error_witness :
    process_video_frame stOff "c1" false ⟨[], [[(1 : ℝ)]]⟩ =
      (stOff, [Event.sent "c1" (OutMsg.error "Failed to decode frame")]) :=
  decode_failure_single_error stOff "c1" ⟨[], [[(1 : ℝ)]]⟩ rfl

/-- C5: for a registered connection whose detection flag is false, a
successfully decoded frame produces no message at all — in particular no
`face_detection_result` — and leaves the state (hence the cache)
unchanged. -/
theorem disabled_frame_no_effect (st : WSState) (client_id : String)
    (r : ProcResult) (_hreg : st.active_connections client_id = true)
    (hoff : st.face_detection_enabled client_id = some false) :
    process_video_frame st client_id true r = (st, []) := by
  simp [process_video_frame, hoff]

/-- Witness for C5 on the concrete disabled state. -/
theorem disabled_frame_no_effect_witness :
    process_video_frame stOff "c1" true ⟨[], [[(1 : ℝ)]]⟩ = (stOff, []) :=
  disabled_frame_no_effect stOff "c1" ⟨[], [[(1 : ℝ)]]⟩ rfl rfl

/-- C6 counterexample: in a successful run with detection enabled and one new
embedding, the event trace is `face_detection_result` first and the cache
append second — the message is delivered before the embeddings are cached,
not after, so the claimed order (append before delivery) fails on this
concrete run. -/
theorem cache_append_before_delivery_counterexample :
    (process_video_frame stOn "c1" true ⟨[], [[(1 : ℝ)]]⟩).2 =
        [Event.sent "c1" (OutMsg.face_detection_result 0 [] 1),
         Event.cacheSet "c1" [[(1 : ℝ)]]] ∧
      (process_video_frame stOn "c1" true ⟨[], [[(1 : ℝ)]]⟩).2.head? =
        some (Event.sent "c1" (OutMsg.face_detection_result 0 [] 1)) :=
  ⟨rfl, rfl⟩

/-- C6 (amended): in every successful run of `process_video_frame` with
detection enabled and at least one newly obtained embedding, the
`face_detection_result` message is delivered to the connection first, and
the embeddings are appended to the connection's cache (with eviction
applied) afterwards. -/
theorem result_delivered_then_cache_appended (st : WSState) (client_id : String)
    (r : ProcResult) (cache : List Emb)
    (hreg : st.active_connections client_id = true)
    (hon : st.face_detection_enabled client_id = some true)
    (hne : r.embeddings.isEmpty = false)
    (hcache : st.face_embeddings_cache client_id = some cache) :
    (process_video_frame st client_id true r).2 =
      [Event.sent client_id
        (OutMsg.face_detection_result r.faces.length (r.faces.map faceInfoOf)
          r.embeddings.length),
       Event.cacheSet client_id (storeEmbeddings cache r.embeddings)] := by
  simp [process_video_frame, sendTo, hreg, hon, hne, hcache]

/-- Witness for C6 (amended) on the concrete enabled state. -/
theorem result_delivered_then_cache_appended_witness :
    (process_video_frame stOn "c1" true ⟨[], [[(1 : ℝ)]]⟩).2 =
      [Event.sent "c1" (OutMsg.face_detection_result 0 [] 1),
       Event.cacheSet "c1" (storeEmbeddings [] [[(1 : ℝ)]])] :=
  result_delivered_then_cache_appended stOn "c1" ⟨[], [[(1 : ℝ)]]⟩ [] rfl rfl rfl rfl

end FacePay
